import Mathlib

/-!
Shallow embedding of `src/index.js` of the mcp-firestore-server repository:
the project-ID configuration resolver (`detectProjectId`), the startup
routine (`startServer`), and the MCP tool dispatcher (the
`CallToolRequestSchema` handler with its seven tool cases), together with
proofs of the specified properties.
-/

namespace FirestoreMcp

/-! ## The configuration resolver -/

/-- JS truthiness test on a possibly-undefined string value, returning the
value itself when truthy: models `if (x) return x` where `x` is either
`undefined` (`none`) or a string (`""` is falsy). Used by the resolver's
environment-variable checks, `firebaseConfig.projects?.default`, and the
dispatcher's `if (args.docId)` / `if (args.orderBy)` tests. -/
def truthyStr : Option String → Option String
  | some s => if s = "" then none else some s
  | none => none

/-- State of a candidate config file (`firebase.json` or `.firebaserc`) at one
directory level: absent on disk, present but `JSON.parse` throws, or parsed
with the value of the nested `projects.default` field (`none` when the field
is missing / undefined). -/
inductive FileState where
  | absent : FileState
  | malformed : FileState
  | parsed : Option String → FileState
deriving DecidableEq, Repr

/-- The two candidate config files found at one ancestor-directory level. -/
structure DirConfig where
  firebaseJson : FileState
  firebaserc : FileState
deriving DecidableEq, Repr

/-- The ambient environment `detectProjectId` reads: the three environment
variables (`none` = unset), the gcloud CLI invocation (`none` = `execSync`
threw — gcloud missing or failing; `some out` = its stdout), and the chain of
ancestor directories starting at `process.cwd()` and ending at the
filesystem root (where `join(dir, '..')` equals the directory itself, ending
the chain). -/
structure ResolverEnv where
  googleCloudProject : Option String
  firebaseProjectId : Option String
  gcloudProject : Option String
  gcloudCli : Option String
  dirs : List DirConfig

/-- What one config file contributes, from `src/index.js` lines 44-69: a
missing file, a file whose `JSON.parse` throws (the `catch` ignores it), and
a parsed file whose `projects?.default` is missing or falsy all yield
nothing; otherwise the field's value is returned. -/
def checkFile : FileState → Option String
  | .absent => none
  | .malformed => none
  | .parsed pd => truthyStr pd

/-- The ancestor-directory walk of `detectProjectId` (`src/index.js` lines
41-74): `for (let i = 0; i < 10; i++)` checks `firebase.json` then
`.firebaserc` at the current directory and moves to the parent, breaking
when the parent equals the current directory (the end of the `dirs` chain).
The fuel argument is the loop bound 10. -/
def walkDirs : List DirConfig → Nat → Option String
  | _, 0 => none
  | [], _ + 1 => none
  | d :: rest, n + 1 =>
    match checkFile d.firebaseJson with
    | some v => some v
    | none =>
      match checkFile d.firebaserc with
      | some v => some v
      | none => walkDirs rest n

/-- `detectProjectId` from `src/index.js` lines 23-77: the three environment
variables in order (JS truthiness), then the gcloud CLI output trimmed and
tested non-empty (an `execSync` throw is swallowed by the `catch`), then the
ancestor-directory walk, and finally `null`. -/
def detectProjectId (env : ResolverEnv) : Option String :=
  match truthyStr env.googleCloudProject with
  | some v => some v
  | none =>
    match truthyStr env.firebaseProjectId with
    | some v => some v
    | none =>
      match truthyStr env.gcloudProject with
      | some v => some v
      | none =>
        match env.gcloudCli with
        | some out =>
          let gcloudOut := out.trim
          if gcloudOut = "" then walkDirs env.dirs 10 else some gcloudOut
        | none => walkDirs env.dirs 10

/-- Written from the spec's words for C1: the ordered list of candidate
sources — the three environment variables (first non-empty value wins), the
gcloud CLI query, then at each ancestor directory `firebase.json` before
`.firebaserc` (field `projects.default`), at most 10 directories. -/
def specCandidates (env : ResolverEnv) : List (Option String) :=
  [truthyStr env.googleCloudProject,
   truthyStr env.firebaseProjectId,
   truthyStr env.gcloudProject,
   truthyStr (env.gcloudCli.map String.trim)]
  ++ (env.dirs.take 10).flatMap (fun d => [checkFile d.firebaseJson, checkFile d.firebaserc])

/-- Written from the spec's words for C1: the value of the highest-priority
available source — the first candidate that is available, all
lower-priority candidates ignored. -/
def firstSome : List (Option String) → Option String
  | [] => none
  | some v :: _ => some v
  | none :: rest => firstSome rest

/-- Replace a config file that `JSON.parse` rejects, or that parses but
lacks the `projects.default` field, by an absent file. -/
def scrubFile : FileState → FileState
  | .malformed => .absent
  | .parsed none => .absent
  | f => f

/-- Apply `scrubFile` to both candidate files of a directory level. -/
def scrubDir (d : DirConfig) : DirConfig :=
  ⟨scrubFile d.firebaseJson, scrubFile d.firebaserc⟩

/-! ## The startup routine -/

/-- Outcome of the startup routine: the process either exits with a code
before serving, or serves with a resolved project ID and the registered
tool list. -/
inductive StartResult where
  | exited : Nat → StartResult
  | serving : String → List String → StartResult
deriving DecidableEq, Repr

/-- The seven tool names registered with the `ListToolsRequestSchema`
handler (`src/index.js` lines 142-236). -/
def registeredTools : List String :=
  ["query_collection", "get_document", "query_with_where", "list_collections",
   "create_document", "update_document", "delete_document"]

/-- `startServer` from `src/index.js` lines 79-477, up to tool registration:
resolve the project ID once; `if (!projectId)` exit with code 1 (JS
falsiness: `null` or the empty string); then probe connectivity (exit 1 on
failure, `connectOk` abstracts the probe's outcome); only then create the
server and register the seven tools. -/
def startServer (env : ResolverEnv) (connectOk : Bool) : StartResult :=
  match detectProjectId env with
  | none => .exited 1
  | some pid =>
    if pid = "" then .exited 1
    else if connectOk then .serving pid registeredTools else .exited 1

/-- An environment with no source available: all variables unset, the CLI
throwing, and an empty directory chain. -/
def emptyEnv : ResolverEnv := ⟨none, none, none, none, []⟩

/-! ## The tool dispatcher -/

/-- A JSON value, the shape of the object serialized into the single text
content item of a tool response. -/
inductive JVal where
  | jstr : String → JVal
  | jnum : Nat → JVal
  | jbool : Bool → JVal
  | jnull : JVal
  | jarr : List JVal → JVal
  | jobj : List (String × JVal) → JVal

/-- A thrown JS `Error`: its `message` and `stack`. -/
structure JsError where
  message : String
  stack : String
deriving DecidableEq, Repr

/-- `new Error(msg)`: a V8 error's stack string begins with `Error: `
followed by the message; the frame lines below that are runtime dependent
and not modelled. -/
def mkError (msg : String) : JsError := ⟨msg, "Error: " ++ msg⟩

/-- A Firestore document's field map, as an association list in field
order (field values are strings in this model). -/
abbrev Doc := List (String × String)

def getField (d : Doc) (k : String) : Option String :=
  (d.find? (fun p => p.1 == k)).map (fun p => p.2)

def setField (d : Doc) (k v : String) : Doc :=
  if d.any (fun p => p.1 == k) then d.map (fun p => if p.1 == k then (k, v) else p)
  else d ++ [(k, v)]

/-- Modelled from the spec: a merge-set updates only the supplied fields,
leaving other existing fields untouched. -/
def mergeFields (old new : Doc) : Doc :=
  new.foldl (fun acc kv => setField acc kv.1 kv.2) old

/-- A collection: document IDs mapped to documents. -/
abbrev Collection := List (String × Doc)

def getDoc (c : Collection) (id : String) : Option Doc :=
  (c.find? (fun p => p.1 == id)).map (fun p => p.2)

def putDoc (c : Collection) (id : String) (d : Doc) : Collection :=
  if c.any (fun p => p.1 == id) then c.map (fun p => if p.1 == id then (id, d) else p)
  else c ++ [(id, d)]

def removeDoc (c : Collection) (id : String) : Collection :=
  c.filter (fun p => p.1 != id)

/-- The Firestore database handle: named collections, plus the state of
the SDK's auto-ID generator. -/
structure DB where
  colls : List (String × Collection)
  nextAutoId : Nat

def getColl (db : DB) (name : String) : Collection :=
  ((db.colls.find? (fun p => p.1 == name)).map (fun p => p.2)).getD []

def putColl (db : DB) (name : String) (c : Collection) : DB :=
  { db with colls :=
      if db.colls.any (fun p => p.1 == name) then
        db.colls.map (fun p => if p.1 == name then (name, c) else p)
      else db.colls ++ [(name, c)] }

/-- Modelled from the spec: `set` without merge options writes the full
document, creating it or replacing its contents entirely. -/
def docSet (db : DB) (coll id : String) (d : Doc) : DB :=
  putColl db coll (putDoc (getColl db coll) id d)

/-- Modelled from the spec: a merge-set (`set` with merge true) updates
only the supplied fields, preserves the document's other fields, and
creates the document when absent. -/
def docSetMerge (db : DB) (coll id : String) (d : Doc) : DB :=
  let c := getColl db coll
  let merged :=
    match getDoc c id with
    | some old => mergeFields old d
    | none => d
  putColl db coll (putDoc c id merged)

/-- Modelled from the spec: `update` writes the supplied fields of an
existing document and fails when the document does not exist. -/
def docUpdate (db : DB) (coll id : String) (d : Doc) : Except JsError DB :=
  match getDoc (getColl db coll) id with
  | some old => .ok (putColl db coll (putDoc (getColl db coll) id (mergeFields old d)))
  | none => .error (mkError ("NOT_FOUND: no document to update: " ++ coll ++ "/" ++ id))

def docDelete (db : DB) (coll id : String) : DB :=
  putColl db coll (removeDoc (getColl db coll) id)

/-- Modelled from the spec: the SDK's `add` auto-generates a document ID,
non-empty and distinct across repeated calls; modelled with the
per-database counter `nextAutoId`. -/
def autoId (n : Nat) : String := "doc" ++ String.mk (List.replicate n 'x')

def collAdd (db : DB) (coll : String) (d : Doc) : DB × String :=
  let id := autoId db.nextAutoId
  let db' := putColl db coll (putDoc (getColl db coll) id d)
  ({ db' with nextAutoId := db.nextAutoId + 1 }, id)

/-- The `arguments` object of a tool call: every property possibly
`undefined`. -/
structure Args where
  collection : Option String := none
  docId : Option String := none
  data : Option Doc := none
  merge : Option Bool := none
  limit : Option Nat := none
  orderBy : Option String := none
  orderDirection : Option String := none
  field : Option String := none
  operator : Option String := none
  value : Option String := none

/-- The empty arguments object. -/
def noArgs : Args := {}

/-- JS truthiness of a possibly-undefined boolean: `undefined` and `false`
are falsy. Models the handler's `if (args.merge)`. -/
def truthyBool : Option Bool → Bool
  | some b => b
  | none => false

/-- `args.limit || 10`: `undefined` and `0` are both falsy in JS, so both
fall back to the default 10. -/
def limitOr10 : Option Nat → Nat
  | some n => if n = 0 then 10 else n
  | none => 10

/-- Modelled from the spec: handing an undefined required argument to the
Firestore client is a database rejection — the SDK throws, and the
dispatcher's catch turns it into a per-request error. -/
def requireArg {α : Type} (o : Option α) (what : String) : Except JsError α :=
  match o with
  | some v => .ok v
  | none => .error (mkError (what ++ " must not be undefined"))

/-- Modelled from the spec: `orderBy` sorts the documents by the named
field's value (documents lacking the field are omitted, per the Firestore
contract), ascending. -/
def insertByField (f : String) (x : String × Doc) : List (String × Doc) → List (String × Doc)
  | [] => [x]
  | y :: ys =>
    if (getField x.2 f).getD "" ≤ (getField y.2 f).getD "" then x :: y :: ys
    else y :: insertByField f x ys

def sortByField (f : String) (docs : List (String × Doc)) : List (String × Doc) :=
  (docs.filter (fun p => (getField p.2 f).isSome)).foldr (insertByField f) []

/-- Modelled from the spec: the `query_with_where` operator comparison of
the document's field value (a string in this model) against the given
value; a document lacking the field never matches, and the
array-membership operators never match scalar string fields. -/
def evalOp (fieldVal : Option String) (op v : String) : Bool :=
  match fieldVal with
  | none => false
  | some x =>
    if op == "==" then x == v
    else if op == "!=" then x != v
    else if op == "<" then decide (x < v)
    else if op == "<=" then decide (x ≤ v)
    else if op == ">" then decide (v < x)
    else if op == ">=" then decide (v ≤ x)
    else false

def docToJ (d : Doc) : JVal := .jobj (d.map (fun kv => (kv.1, .jstr kv.2)))

def docsToJ (docs : List (String × Doc)) : JVal :=
  .jarr (docs.map (fun p => JVal.jobj [("id", .jstr p.1), ("data", docToJ p.2)]))

/-- The `try` block of the `CallToolRequestSchema` handler
(`src/index.js` lines 245-431): the switch over the seven tool names,
threading the database state; the default branch throws
`Unknown tool: <name>`. -/
def callTool (db : DB) (name : String) (args : Args) : Except JsError (DB × JVal) :=
  if name == "query_collection" then do
    let coll ← requireArg args.collection "collection"
    let base := getColl db coll
    let ordered :=
      match truthyStr args.orderBy with
      | some ob =>
        let sorted := sortByField ob base
        if (truthyStr args.orderDirection).getD "asc" == "desc" then sorted.reverse else sorted
      | none => base
    let docs := ordered.take (limitOr10 args.limit)
    pure (db, JVal.jobj [("collection", .jstr coll), ("count", .jnum docs.length),
                         ("documents", docsToJ docs)])
  else if name == "get_document" then do
    let coll ← requireArg args.collection "collection"
    let docId ← requireArg args.docId "docId"
    match getDoc (getColl db coll) docId with
    | some d =>
      pure (db, JVal.jobj [("id", .jstr docId), ("exists", .jbool true), ("data", docToJ d)])
    | none =>
      pure (db, JVal.jobj [("id", .jstr docId), ("exists", .jbool false), ("data", .jnull)])
  else if name == "query_with_where" then do
    let coll ← requireArg args.collection "collection"
    let f ← requireArg args.field "field"
    let op ← requireArg args.operator "operator"
    let v ← requireArg args.value "value"
    let docs := ((getColl db coll).filter (fun p => evalOp (getField p.2 f) op v)).take
      (limitOr10 args.limit)
    pure (db, JVal.jobj [("collection", .jstr coll),
                         ("query", .jstr (f ++ " " ++ op ++ " " ++ v)),
                         ("count", .jnum docs.length), ("documents", docsToJ docs)])
  else if name == "list_collections" then
    pure (db, JVal.jobj [("collections", .jarr (db.colls.map (fun p => JVal.jstr p.1)))])
  else if name == "create_document" then do
    let coll ← requireArg args.collection "collection"
    match truthyStr args.docId with
    | some d => do
      let dat ← requireArg args.data "data"
      pure (docSet db coll d dat,
            JVal.jobj [("collection", .jstr coll), ("id", .jstr d),
                       ("operation", .jstr "created")])
    | none => do
      let dat ← requireArg args.data "data"
      let added := collAdd db coll dat
      pure (added.1, JVal.jobj [("collection", .jstr coll), ("id", .jstr added.2),
                                ("operation", .jstr "created")])
  else if name == "update_document" then do
    let coll ← requireArg args.collection "collection"
    let docId ← requireArg args.docId "docId"
    let dat ← requireArg args.data "data"
    let mergeJson :=
      match args.merge with
      | some b => [("merge", JVal.jbool b)]
      | none => []
    if truthyBool args.merge then
      pure (docSetMerge db coll docId dat,
            JVal.jobj ([("collection", .jstr coll), ("id", .jstr docId),
                        ("operation", .jstr "updated")] ++ mergeJson))
    else do
      let db' ← docUpdate db coll docId dat
      pure (db', JVal.jobj ([("collection", .jstr coll), ("id", .jstr docId),
                             ("operation", .jstr "updated")] ++ mergeJson))
  else if name == "delete_document" then do
    let coll ← requireArg args.collection "collection"
    let docId ← requireArg args.docId "docId"
    pure (docDelete db coll docId,
          JVal.jobj [("collection", .jstr coll), ("id", .jstr docId),
                     ("operation", .jstr "deleted")])
  else
    .error (mkError ("Unknown tool: " ++ name))

/-- The MCP tool response envelope: `body` is the JSON value serialized
into the single text content item; `isError` is absent (false) on
success. -/
structure ToolResponse where
  body : JVal
  isError : Bool

/-- The error response built by the handler's catch block: a JSON body
with the error's message and stack, and `isError: true`. -/
def errorResponse (e : JsError) : ToolResponse :=
  ⟨.jobj [("error", .jstr e.message), ("stack", .jstr e.stack)], true⟩

/-- The full `CallToolRequestSchema` handler (`src/index.js` lines
241-451): run the switch; a thrown error is caught and converted into the
`isError: true` response carrying the error's message and stack. -/
def handleRequest (db : DB) (name : String) (args : Args) : DB × ToolResponse :=
  match callTool db name args with
  | .ok (db', payload) => (db', ⟨payload, false⟩)
  | .error e => (db, errorResponse e)

/-- The server loop at the dispatcher level: serve each request in order,
threading the database state. -/
def serve (db : DB) : List (String × Args) → List ToolResponse
  | [] => []
  | (n, a) :: rest =>
    let step := handleRequest db n a
    step.2 :: serve step.1 rest

/-- The empty database. -/
def db₀ : DB := ⟨[], 0⟩

/-! ## Theorems: the configuration resolver -/

/-- The walk equals the first available candidate among the per-directory,
per-file candidates of the first `fuel` directories. -/
theorem walkDirs_eq_firstSome (dirs : List DirConfig) (fuel : Nat) :
    walkDirs dirs fuel
      = firstSome ((dirs.take fuel).flatMap
          (fun d => [checkFile d.firebaseJson, checkFile d.firebaserc])) := by
  induction fuel generalizing dirs with
  | zero => simp [walkDirs, firstSome]
  | succ n ih =>
    cases dirs with
    | nil => simp [walkDirs, firstSome]
    | cons d rest =>
      simp only [walkDirs, List.take_succ_cons, List.flatMap_cons, List.cons_append]
      cases h1 : checkFile d.firebaseJson with
      | some v => simp [firstSome, h1]
      | none =>
        cases h2 : checkFile d.firebaserc with
        | some v => simp [firstSome, h1, h2]
        | none => simp [firstSome, h1, h2, ih]

/-- C1. For every configuration of available sources, `detectProjectId`
returns the value of the highest-priority available source and ignores all
lower-priority ones, consulting in this fixed order: the environment
variables GOOGLE_CLOUD_PROJECT, FIREBASE_PROJECT_ID, GCLOUD_PROJECT (first
non-empty value wins), then the gcloud CLI query, then at each ancestor
directory `firebase.json` before `.firebaserc` (field `projects.default`). -/
theorem detectProjectId_priority_order (env : ResolverEnv) :
    detectProjectId env = firstSome (specCandidates env) := by
  unfold detectProjectId specCandidates
  cases h1 : truthyStr env.googleCloudProject with
  | some v => simp [firstSome, h1]
  | none =>
    cases h2 : truthyStr env.firebaseProjectId with
    | some v => simp [firstSome, h1, h2]
    | none =>
      cases h3 : truthyStr env.gcloudProject with
      | some v => simp [firstSome, h1, h2, h3]
      | none =>
        cases h4 : env.gcloudCli with
        | some out =>
          by_cases h5 : out.trim = "" <;>
            simp [firstSome, h4, h5, truthyStr, walkDirs_eq_firstSome]
        | none => simp [firstSome, h4, truthyStr, walkDirs_eq_firstSome]

/-- C4. The ancestor-directory walk examines at most 10 directory levels
(the starting working directory is level 1): the result of `detectProjectId`
depends only on the first 10 directories of the chain, so a config file
located at level 11 or deeper is never used. The stop at the filesystem
root (parent-of-current equals current) is the end of the `dirs` chain in
this embedding. -/
theorem detectProjectId_depth_limit (env : ResolverEnv) :
    detectProjectId env = detectProjectId { env with dirs := env.dirs.take 10 } := by
  unfold detectProjectId
  have hwalk : walkDirs (env.dirs.take 10) 10 = walkDirs env.dirs 10 := by
    rw [walkDirs_eq_firstSome, walkDirs_eq_firstSome, List.take_take]
    simp
  simp [hwalk]

theorem checkFile_scrubFile (f : FileState) : checkFile (scrubFile f) = checkFile f := by
  cases f with
  | absent => rfl
  | malformed => rfl
  | parsed pd => cases pd <;> rfl

theorem walkDirs_scrub (dirs : List DirConfig) (fuel : Nat) :
    walkDirs (dirs.map scrubDir) fuel = walkDirs dirs fuel := by
  induction fuel generalizing dirs with
  | zero => simp [walkDirs]
  | succ n ih =>
    cases dirs with
    | nil => simp [walkDirs]
    | cons d rest =>
      simp only [List.map_cons, walkDirs, scrubDir, checkFile_scrubFile]
      cases checkFile d.firebaseJson with
      | some v => rfl
      | none =>
        cases checkFile d.firebaserc with
        | some v => rfl
        | none => simpa using ih rest

/-- C5. `detectProjectId` is a total function (it never raises: for every
environment it returns either a project-ID string or the "not found" signal
`none`), and a file whose JSON fails to parse or whose parse lacks the
`projects.default` field behaves exactly like an absent file: the walk
continues to the next candidate. -/
theorem detectProjectId_malformed_skipped (env : ResolverEnv) :
    detectProjectId { env with dirs := env.dirs.map scrubDir } = detectProjectId env := by
  unfold detectProjectId
  simp [walkDirs_scrub]

/-- C3. If none of the six configuration sources yields a value the
resolver returns `none` and startup exits with code 1 with no tool
registered; and whenever the process reaches the serving state, its project
ID is exactly the resolver's (single) result and only then are the seven
tools registered. -/
theorem startServer_requires_projectId (env : ResolverEnv) (connectOk : Bool) :
    (detectProjectId env = none → startServer env connectOk = StartResult.exited 1)
    ∧ (∀ pid tools, startServer env connectOk = StartResult.serving pid tools →
        detectProjectId env = some pid ∧ tools = registeredTools) := by
  constructor
  · intro h
    simp [startServer, h]
  · intro pid tools h
    cases hd : detectProjectId env with
    | none => simp [startServer, hd] at h
    | some p =>
      by_cases hp : p = ""
      · simp [startServer, hd, hp] at h
      · cases connectOk with
        | false => simp [startServer, hd, hp] at h
        | true =>
          simp [startServer, hd, hp] at h
          obtain ⟨h1, h2⟩ := h
          subst h1
          subst h2
          exact ⟨rfl, rfl⟩

/-- Witness for C3 at a concrete environment with no available source. -/
theorem startServer_requires_projectId_witness :
    startServer emptyEnv true = StartResult.exited 1 :=
  (startServer_requires_projectId emptyEnv true).1 rfl

/-! ## Theorems: the tool dispatcher -/

theorem exceptBind_ok {α β : Type} (a : α) (f : α → Except JsError β) :
    (Except.ok a >>= f : Except JsError β) = f a := rfl

theorem exceptPure_ok {α : Type} (a : α) :
    (pure a : Except JsError α) = Except.ok a := rfl

/-- The dispatcher answers every request in a batch: one response per
request, whatever each one's outcome. -/
theorem serve_length (db : DB) (reqs : List (String × Args)) :
    (serve db reqs).length = reqs.length := by
  induction reqs generalizing db with
  | nil => rfl
  | cons r rest ih =>
    cases r with
    | mk n a => simp [serve, ih]

/-- C6. Any error thrown inside a tool handler is caught and converted
into a response with `isError: true` whose body is a JSON object carrying
the error's message and stack detail, and the dispatcher still answers
every subsequent request (the process does not exit on a per-request
error). -/
theorem handler_errors_caught (db : DB) (name : String) (args : Args) :
    (∀ e, callTool db name args = .error e →
      handleRequest db name args = (db, errorResponse e))
    ∧ ∀ reqs, (serve db ((name, args) :: reqs)).length = reqs.length + 1 := by
  constructor
  · intro e he
    simp [handleRequest, he]
  · intro reqs
    simp [serve_length]

/-- Witness for C6: a request whose handler throws is answered with the
`isError: true` envelope carrying the message and stack. -/
theorem handler_errors_caught_witness :
    handleRequest db₀ "nope" noArgs = (db₀, errorResponse (mkError "Unknown tool: nope")) :=
  (handler_errors_caught db₀ "nope" noArgs).1 (mkError "Unknown tool: nope") rfl

/-- C10. A tool-invocation request whose name is none of the seven
registered tool names yields a response with `isError: true` whose body
carries the error message `Unknown tool: <name>` (and the database is
untouched), rather than a crash or a success payload. -/
theorem unknown_tool_isError (db : DB) (name : String) (args : Args)
    (h : name ∉ registeredTools) :
    handleRequest db name args = (db, errorResponse (mkError ("Unknown tool: " ++ name))) := by
  simp only [registeredTools, List.mem_cons, List.not_mem_nil, or_false] at h
  push_neg at h
  obtain ⟨h1, h2, h3, h4, h5, h6, h7⟩ := h
  simp [handleRequest, callTool, h1, h2, h3, h4, h5, h6, h7]

/-- Witness for C10 at the unregistered tool name `nope`. -/
theorem unknown_tool_isError_witness :
    handleRequest db₀ "nope" noArgs
      = (db₀, errorResponse (mkError ("Unknown tool: " ++ "nope"))) :=
  unknown_tool_isError db₀ "nope" noArgs (by decide)

/-- C8. `get_document` for a docId that does not exist in the collection
returns a success payload (no `isError`) with `exists: false` and
`data: null`; when the document exists, `data` is the document's
contents. -/
theorem get_document_missing_ok (db : DB) (coll id : String) :
    (getDoc (getColl db coll) id = none →
      handleRequest db "get_document" { noArgs with collection := some coll, docId := some id }
        = (db, ⟨.jobj [("id", .jstr id), ("exists", .jbool false), ("data", .jnull)], false⟩))
    ∧ ∀ d, getDoc (getColl db coll) id = some d →
      handleRequest db "get_document" { noArgs with collection := some coll, docId := some id }
        = (db, ⟨.jobj [("id", .jstr id), ("exists", .jbool true), ("data", docToJ d)], false⟩) := by
  constructor
  · intro h
    simp [handleRequest, callTool, requireArg, exceptBind_ok, exceptPure_ok, h]
  · intro d h
    simp [handleRequest, callTool, requireArg, exceptBind_ok, exceptPure_ok, h]

/-- Witness for C8: fetching a document from the empty database. -/
theorem get_document_missing_ok_witness :
    handleRequest db₀ "get_document" { noArgs with collection := some "c", docId := some "d" }
      = (db₀, ⟨.jobj [("id", .jstr "d"), ("exists", .jbool false), ("data", .jnull)], false⟩) :=
  (get_document_missing_ok db₀ "c" "d").1 rfl

/-- C9. `create_document` with `docId` equal to the empty string behaves
exactly as if `docId` were absent — `if (args.docId)` is falsy for `""` —
so the document is created under an auto-generated ID. -/
theorem create_document_empty_docId (db : DB) (coll : String) (dat : Doc) :
    callTool db "create_document"
        { noArgs with collection := some coll, docId := some "", data := some dat }
      = callTool db "create_document"
        { noArgs with collection := some coll, data := some dat }
    ∧ callTool db "create_document"
        { noArgs with collection := some coll, docId := some "", data := some dat }
      = .ok ((collAdd db coll dat).1,
             .jobj [("collection", .jstr coll), ("id", .jstr (autoId db.nextAutoId)),
                    ("operation", .jstr "created")]) :=
  ⟨rfl, rfl⟩

theorem autoId_length (n : Nat) : (autoId n).length = n + 3 := by
  simp [autoId, String.length_append, String.length]

theorem autoId_ne_empty (n : Nat) : autoId n ≠ "" := by
  intro h
  have hlen := congrArg String.length h
  rw [autoId_length] at hlen
  simp [String.length] at hlen

theorem autoId_injective {m n : Nat} (h : autoId m = autoId n) : m = n := by
  have hlen := congrArg String.length h
  rw [autoId_length, autoId_length] at hlen
  omega

/-- C7. `create_document` with a (truthy) `docId` supplied writes the
document at that ID via `set` and answers with that exact `id`; without
`docId` it answers with the SDK's auto-generated id, which is non-empty
and distinct across repeated calls (here: two successive calls). -/
theorem create_document_id_behaviour (db : DB) (coll d : String) (dat : Doc) (hd : d ≠ "") :
    callTool db "create_document"
        { noArgs with collection := some coll, docId := some d, data := some dat }
      = .ok (docSet db coll d dat,
             .jobj [("collection", .jstr coll), ("id", .jstr d), ("operation", .jstr "created")])
    ∧ callTool db "create_document"
        { noArgs with collection := some coll, data := some dat }
      = .ok ((collAdd db coll dat).1,
             .jobj [("collection", .jstr coll), ("id", .jstr (autoId db.nextAutoId)),
                    ("operation", .jstr "created")])
    ∧ callTool (collAdd db coll dat).1 "create_document"
        { noArgs with collection := some coll, data := some dat }
      = .ok ((collAdd (collAdd db coll dat).1 coll dat).1,
             .jobj [("collection", .jstr coll), ("id", .jstr (autoId (db.nextAutoId + 1))),
                    ("operation", .jstr "created")])
    ∧ autoId db.nextAutoId ≠ "" ∧ autoId (db.nextAutoId + 1) ≠ ""
    ∧ autoId db.nextAutoId ≠ autoId (db.nextAutoId + 1) := by
  refine ⟨?_, rfl, rfl, autoId_ne_empty _, autoId_ne_empty _, ?_⟩
  · simp [callTool, truthyStr, hd, requireArg, exceptBind_ok, exceptPure_ok]
  · intro h
    exact absurd (autoId_injective h) (by omega)

/-- Witness for C7 on the empty database with docId `x`. -/
theorem create_document_id_behaviour_witness :
    callTool db₀ "create_document"
        { noArgs with collection := some "c", docId := some "x", data := some [("a", "1")] }
      = .ok (docSet db₀ "c" "x" [("a", "1")],
             .jobj [("collection", .jstr "c"), ("id", .jstr "x"), ("operation", .jstr "created")])
    ∧ callTool db₀ "create_document"
        { noArgs with collection := some "c", data := some [("a", "1")] }
      = .ok ((collAdd db₀ "c" [("a", "1")]).1,
             .jobj [("collection", .jstr "c"), ("id", .jstr (autoId db₀.nextAutoId)),
                    ("operation", .jstr "created")])
    ∧ callTool (collAdd db₀ "c" [("a", "1")]).1 "create_document"
        { noArgs with collection := some "c", data := some [("a", "1")] }
      = .ok ((collAdd (collAdd db₀ "c" [("a", "1")]).1 "c" [("a", "1")]).1,
             .jobj [("collection", .jstr "c"), ("id", .jstr (autoId (db₀.nextAutoId + 1))),
                    ("operation", .jstr "created")])
    ∧ autoId db₀.nextAutoId ≠ "" ∧ autoId (db₀.nextAutoId + 1) ≠ ""
    ∧ autoId db₀.nextAutoId ≠ autoId (db₀.nextAutoId + 1) :=
  create_document_id_behaviour db₀ "c" "x" [("a", "1")] (by decide)

/-- C2, evaluated at the failing input. The claim (matching the tool's own
declared schema, `merge` default `true`) says an omitted `merge` performs a
merge-set; but the handler tests `if (args.merge)`, for which an omitted
`merge` is falsy, so the code calls `update()` instead, which throws
NOT_FOUND when the document does not exist. On an empty database:
updating `c/d` with `merge` omitted yields `isError: true`, while the same
request with explicit `merge: true` succeeds with a merge-set. -/
theorem update_document_merge_omitted_bug :
    handleRequest db₀ "update_document"
        { noArgs with collection := some "c", docId := some "d", data := some [("a", "1")] }
      = (db₀, errorResponse (mkError ("NOT_FOUND: no document to update: " ++ "c" ++ "/" ++ "d")))
    ∧ handleRequest db₀ "update_document"
        { noArgs with
            collection := some "c"
            docId := some "d"
            data := some [("a", "1")]
            merge := some true }
      = (docSetMerge db₀ "c" "d" [("a", "1")],
         ⟨.jobj [("collection", .jstr "c"), ("id", .jstr "d"), ("operation", .jstr "updated"),
                 ("merge", .jbool true)], false⟩) :=
  ⟨rfl, rfl⟩

end FirestoreMcp
